import Mathlib

/-!
Shallow embedding of the kagimcp server (`src/kagimcp/server.py`).

The server exposes two tools: `kagi_search_fetch` (a multi-query search
fan-out whose responses are rendered by `format_search_results`) and
`kagi_summarizer` (a single-request summarization adapter).

Modelling conventions:
* Python dict lookups `d.get(k)` / optional keys become `Option` fields;
  a direct subscript `d[k]` on a possibly missing key becomes an
  `Except PyErr` computation that fails with `PyErr.keyError k`.
* Python truthiness on the walrus test `if error := response.get("error")`
  is modelled by `truthyError`: the branch fires only when the error field
  is present and non-empty.
* Raised exceptions become `Except.error`; `raise ValueError(msg)` becomes
  `PyErr.valueError msg`.
* The remote client (`kagi_client.search` / `kagi_client.summarize`) is an
  oracle parameter; each tool also returns the list of gateway calls it
  issued, so that "no remote call is made" is expressible.  The thread-pool
  fan-out submits every query up front, so a non-empty batch always logs
  the full query list; its real-time timeout is abstracted as an oracle
  fault (`Except.error`).
-/

/-- Python exceptions raised by the embedded code. -/
inductive PyErr where
  | valueError (msg : String)
  | keyError (key : String)
  deriving Repr, DecidableEq

/-- One entry of a search response's `data` list.  `t` is the discriminator
tag (`0` organic result, `1` related search); the four text fields are
optional keys of the underlying dict. -/
structure ResultItem where
  t : Option Int
  title : Option String
  url : Option String
  published : Option String
  snippet : Option String
  deriving Repr, DecidableEq

/-- A per-query search response: an optional `error` field and an optional
`data` list (a missing `data` key makes `response["data"]` raise). -/
structure SearchResponse where
  error : Option String
  data : Option (List ResultItem)
  deriving Repr, DecidableEq

/-- Python truthiness of `response.get("error")`: the value bound by the
walrus operator when the `if` branch is taken (`none` when the key is
missing or the message is empty, hence falsy). -/
def truthyError : Option String → Option String
  | none => none
  | some e => if e = "" then none else some e

/-- The comprehension `[result for result in response["data"] if result["t"] == 0]`:
each item's `t` subscript may raise `KeyError("t")`. -/
def filterOrganic : List ResultItem → Except PyErr (List ResultItem)
  | [] => Except.ok []
  | result :: rest =>
    match result.t with
    | none => Except.error (PyErr.keyError "t")
    | some t =>
      match filterOrganic rest with
      | Except.error e => Except.error e
      | Except.ok tail =>
        if t == 0 then Except.ok (result :: tail) else Except.ok tail

/-- Sentinel used for absent optional fields. -/
def notAvailableStr : String := "Not Available"

/-- The dedented/stripped `result_template` instantiated with
`result.get(field, not_available_str)` for each optional field. -/
def formatResult (result_number : Nat) (result : ResultItem) : String :=
  toString result_number ++ ": " ++ result.title.getD notAvailableStr ++ "\n" ++
    result.url.getD notAvailableStr ++ "\nPublished Date: " ++
    result.published.getD notAvailableStr ++ "\n" ++ result.snippet.getD notAvailableStr

/-- The dedented/stripped `query_response_template`: labeled header plus the
per-query body. -/
def formatQueryBlock (query formatted_search_results : String) : String :=
  "-----\nResults for search query \"" ++ query ++ "\":\n-----\n" ++
    formatted_search_results

/-- The `"\n\n".join` of the enumerated `result_template` instances,
numbering from `start_index` (Python `enumerate(results, start=start_index)`). -/
def formatBody (start_index : Nat) (results : List ResultItem) : String :=
  String.intercalate "\n\n" ((List.enumFrom start_index results).map fun p => formatResult p.1 p.2)

/-- The main loop of `format_search_results` over `zip(queries, responses)`,
threading `start_index` and producing the per-query block strings. -/
def formatPairs : Nat → List (String × SearchResponse) → Except PyErr (List String)
  | _, [] => Except.ok []
  | start_index, (query, response) :: rest =>
    match truthyError response.error with
    | some e =>
      match formatPairs start_index rest with
      | Except.error err => Except.error err
      | Except.ok tail =>
        Except.ok (formatQueryBlock query ("ERROR: " ++ e) :: tail)
    | none =>
      match response.data with
      | none => Except.error (PyErr.keyError "data")
      | some data =>
        match filterOrganic data with
        | Except.error err => Except.error err
        | Except.ok results =>
          match formatPairs (start_index + results.length) rest with
          | Except.error err => Except.error err
          | Except.ok tail =>
            Except.ok (formatQueryBlock query (formatBody start_index results) :: tail)

/-- `format_search_results(queries, responses)`: the `"\n\n".join` of the
per-query blocks; `Except.error` models a raised `KeyError`. -/
def format_search_results (queries : List String) (responses : List SearchResponse) :
    Except PyErr String :=
  (formatPairs 1 (queries.zip responses)).map (String.intercalate "\n\n")

/-- Observation of the main loop of `format_search_results`: the sequence of
`result_number` values handed to `result_template`, in output order, under
exactly the control flow of `formatPairs`. -/
def numbersUsed : Nat → List (String × SearchResponse) → Except PyErr (List Nat)
  | _, [] => Except.ok []
  | start_index, (_, response) :: rest =>
    match truthyError response.error with
    | some _ => numbersUsed start_index rest
    | none =>
      match response.data with
      | none => Except.error (PyErr.keyError "data")
      | some data =>
        match filterOrganic data with
        | Except.error err => Except.error err
        | Except.ok results =>
          match numbersUsed (start_index + results.length) rest with
          | Except.error err => Except.error err
          | Except.ok tail =>
            Except.ok ((List.enumFrom start_index results).map Prod.fst ++ tail)

/-- Specification-side count: the number of organic (`t = 0`) items of a
response that does not take the error branch. -/
def organicCount (response : SearchResponse) : Nat :=
  match truthyError response.error, response.data with
  | some _, _ => 0
  | none, none => 0
  | none, some data => (data.filter fun r => r.t == some 0).length

/-- Specification-side count: total organic items across all non-errored
responses of the batch. -/
def totalOrganicCount (responses : List SearchResponse) : Nat :=
  (responses.map organicCount).sum

/-- Removal of the related-search (`t = 1`) items from a response's data. -/
def dropRelated (response : SearchResponse) : SearchResponse :=
  { response with data := response.data.map (List.filter fun r => !(r.t == some 1)) }

/-- A response the formatter can render without raising: it either takes the
error branch, or carries a data list all of whose items carry a `t` tag. -/
def wellFormedResponse (response : SearchResponse) : Bool :=
  match truthyError response.error with
  | some _ => true
  | none =>
    match response.data with
    | none => false
    | some data => data.all fun r => r.t.isSome

/-- Aggregate error message for a search transport fault (the `f`-string up
to the embedded exception text). -/
def searchBetaErrText : String :=
  "Error calling Kagi Search API (Currently in beta, make sure you have been granted access. Can be granted by emailing support@kagi.com): "

/-- Collection of the fan-out results, `list(executor.map(kagi_client.search,
queries, timeout=10))`: the per-query responses in input order; the first
raised fault (in iteration order) aborts the collection.  A request
exceeding the 10-unit timeout is one such fault, abstracted as an oracle
`Except.error`. -/
def runSearchBatch (search : String → Except String SearchResponse) :
    List String → Except String (List SearchResponse)
  | [] => Except.ok []
  | q :: rest =>
    match search q with
    | Except.error e => Except.error e
    | Except.ok r =>
      match runSearchBatch search rest with
      | Except.error e => Except.error e
      | Except.ok rs => Except.ok (r :: rs)

/-- `kagi_search_fetch(queries)` over a gateway oracle `search`.  The second
component is the list of queries actually sent to the gateway: the
thread-pool `executor.map` submits every query of a non-empty batch. -/
def kagi_search_fetch (search : String → Except String SearchResponse)
    (queries : List String) : Except PyErr String × List String :=
  if queries.isEmpty then
    (Except.error (PyErr.valueError "Search called with no queries."), [])
  else
    match runSearchBatch search queries with
    | Except.error e =>
      (Except.error (PyErr.valueError (searchBetaErrText ++ e)), queries)
    | Except.ok results => (format_search_results queries results, queries)

/-- The `output` record of a summarizer response's `data` field. -/
structure SummarizeData where
  output : Option String
  deriving Repr, DecidableEq

/-- A summarizer response: optional `data` record and optional `error` field. -/
structure SummarizeResponse where
  data : Option SummarizeData
  error : Option String
  deriving Repr, DecidableEq

/-- The `summary_type` literal: `"summary"` or `"takeaway"`. -/
inductive SummaryType where
  | summary
  | takeaway
  deriving Repr, DecidableEq

/-- Arguments of one `kagi_client.summarize` gateway call. -/
structure SummarizeCall where
  url : String
  engine : String
  summary_type : SummaryType
  target_language : Option String
  deriving Repr, DecidableEq

/-- The closed set `valid_engines` (in source order). -/
def validEngines : List String := ["cecil", "agnes", "daphne", "muriel"]

/-- Rendering of a Python set of strings, as interpolated into an f-string.
CPython's set iteration order is hash-dependent; we fix the source-order
rendering as the representative. -/
def pySetRepr (xs : List String) : String :=
  "\x7b" ++ String.intercalate ", " (xs.map fun s => "\x27" ++ s ++ "\x27") ++ "\x7d"

/-- The configuration-error message for an invalid engine value. -/
def engineErrorMsg (engine : String) : String :=
  "Summarizer configured incorrectly, invalid summarization engine set: " ++ engine ++
    ". Must be one of the following: " ++ pySetRepr validEngines

/-- Handling of a summarizer response, lines 128-132 of the source:
`summary = response["data"]["output"]` (two fallible subscripts) and only
then the truthy `error` check. -/
def handleSummarizeResponse (response : SummarizeResponse) : Except PyErr String :=
  match response.data with
  | none => Except.error (PyErr.keyError "data")
  | some d =>
    match d.output with
    | none => Except.error (PyErr.keyError "output")
    | some summary =>
      match truthyError response.error with
      | some e => Except.error (PyErr.valueError e)
      | none => Except.ok summary

/-- `kagi_summarizer(url, summary_type, target_language)` over a gateway
oracle `summarize` and the `KAGI_SUMMARIZER_ENGINE` environment value
(`engineEnv`, defaulting to `"cecil"`).  The second component is the list of
gateway calls issued. -/
def kagi_summarizer (summarize : SummarizeCall → Except PyErr SummarizeResponse)
    (engineEnv : Option String) (url : String) (summary_type : SummaryType)
    (target_language : Option String) : Except PyErr String × List SummarizeCall :=
  if url = "" then
    (Except.error (PyErr.valueError "Summarizer called with no URL."), [])
  else
    let engine := engineEnv.getD "cecil"
    if validEngines.contains engine then
      let call : SummarizeCall := ⟨url, engine, summary_type, target_language⟩
      match summarize call with
      | Except.error f => (Except.error f, [call])
      | Except.ok response => (handleSummarizeResponse response, [call])
    else
      (Except.error (PyErr.valueError (engineErrorMsg engine)), [])

/-! Helper lemmas shared by several developments below. -/

theorem filterOrganic_eq_filter {data l : List ResultItem}
    (h : filterOrganic data = Except.ok l) :
    l = data.filter fun r => r.t == some 0 := by
  induction data generalizing l with
  | nil =>
    simp only [filterOrganic, Except.ok.injEq] at h
    simp [← h]
  | cons r rest ih =>
    match hr : r.t with
    | none => simp [filterOrganic, hr] at h
    | some t =>
      simp only [filterOrganic, hr] at h
      cases hrec : filterOrganic rest with
      | error e => simp [hrec] at h
      | ok tail =>
        simp only [hrec] at h
        by_cases ht : t = 0
        · subst ht
          rw [if_pos (by simp)] at h
          cases h
          simp [List.filter, hr, ih hrec]
        · rw [if_neg (by simpa using ht)] at h
          cases h
          have : (r.t == some 0) = false := by simp [hr, ht]
          simp [List.filter, this, ih hrec]

theorem filterOrganic_ok_of_all_isSome {data : List ResultItem}
    (h : ∀ r ∈ data, r.t.isSome) :
    ∃ l, filterOrganic data = Except.ok l := by
  induction data with
  | nil => exact ⟨[], rfl⟩
  | cons r rest ih =>
    obtain ⟨l, hl⟩ := ih fun x hx => h x (List.mem_cons_of_mem _ hx)
    have hr := h r (List.mem_cons_self _ _)
    match hrt : r.t with
    | none => rw [hrt] at hr; simp at hr
    | some t =>
      by_cases ht : t = 0
      · exact ⟨r :: l, by simp [filterOrganic, hrt, hl, ht]⟩
      · exact ⟨l, by simp [filterOrganic, hrt, hl, ht]⟩

theorem organicCount_of_truthy {response : SearchResponse} {e : String}
    (h : truthyError response.error = some e) : organicCount response = 0 := by
  simp [organicCount, h]

theorem organicCount_of_data {response : SearchResponse} {data : List ResultItem}
    (he : truthyError response.error = none) (hd : response.data = some data) :
    organicCount response = (data.filter fun r => r.t == some 0).length := by
  simp [organicCount, he, hd]

theorem numbersUsed_of_formatPairs_ok {pairs : List (String × SearchResponse)}
    {start_index : Nat} {blocks : List String}
    (h : formatPairs start_index pairs = Except.ok blocks) :
    numbersUsed start_index pairs =
      Except.ok (List.range' start_index (totalOrganicCount (pairs.map Prod.snd))) := by
  induction pairs generalizing start_index blocks with
  | nil => simp [numbersUsed, totalOrganicCount]
  | cons p rest ih =>
    obtain ⟨query, response⟩ := p
    match he : truthyError response.error with
    | some e =>
      simp only [formatPairs, he] at h
      cases hrec : formatPairs start_index rest with
      | error err => rw [hrec] at h; exact absurd h (by simp)
      | ok tail =>
        simp only [numbersUsed, he, List.map_cons, totalOrganicCount, List.map_cons,
          List.sum_cons, organicCount_of_truthy he, Nat.zero_add]
        exact ih hrec
    | none =>
      simp only [formatPairs, he] at h
      match hd : response.data with
      | none =>
        rw [hd] at h
        simp at h
      | some data =>
        rw [hd] at h
        simp only [] at h
        cases hf : filterOrganic data with
        | error err => rw [hf] at h; simp at h
        | ok results =>
          rw [hf] at h
          simp only [] at h
          cases hrec : formatPairs (start_index + results.length) rest with
          | error err => rw [hrec] at h; simp at h
          | ok tail =>
            simp only [numbersUsed, he, hd, hf, ih hrec, totalOrganicCount, List.map_cons,
              List.sum_cons, List.enumFrom_map_fst]
            congr 1
            have hap := List.range'_append start_index results.length
              (((rest.map Prod.snd).map organicCount).sum) 1
            rw [Nat.one_mul] at hap
            have hc : organicCount response = results.length := by
              rw [organicCount_of_data he hd, filterOrganic_eq_filter hf]
            rw [hc, Nat.add_comm results.length]
            exact hap

theorem formatPairs_ok_of_wellFormed {pairs : List (String × SearchResponse)}
    (h : ∀ p ∈ pairs, wellFormedResponse p.2 = true) :
    ∀ start_index, ∃ blocks, formatPairs start_index pairs = Except.ok blocks := by
  induction pairs with
  | nil => exact fun _ => ⟨[], rfl⟩
  | cons p rest ih =>
    intro start_index
    obtain ⟨query, response⟩ := p
    have hrest := ih fun x hx => h x (List.mem_cons_of_mem _ hx)
    have hresp := h (query, response) (List.mem_cons_self _ _)
    match he : truthyError response.error with
    | some e =>
      obtain ⟨tail, htail⟩ := hrest start_index
      exact ⟨formatQueryBlock query ("ERROR: " ++ e) :: tail,
        by simp [formatPairs, he, htail]⟩
    | none =>
      simp only [wellFormedResponse, he] at hresp
      match hd : response.data with
      | none => rw [hd] at hresp; exact absurd hresp (by simp)
      | some data =>
        rw [hd] at hresp
        have hall : ∀ r ∈ data, r.t.isSome := by
          intro r hr
          exact List.all_eq_true.mp hresp r hr
        obtain ⟨results, hres⟩ := filterOrganic_ok_of_all_isSome hall
        obtain ⟨tail, htail⟩ := hrest (start_index + results.length)
        exact ⟨formatQueryBlock query (formatBody start_index results) :: tail,
          by simp [formatPairs, he, hd, hres, htail]⟩

/-! Claim theorems. -/

/-- C1: for every non-empty query list and aligned response list on which the
formatter succeeds, the result numbers handed to the result template form
exactly the sequence 1..N where N is the total number of `t = 0` items across
all responses that do not take the error branch: strictly increasing,
starting at 1, continuous across query boundaries, with no gaps or repeats,
and errored queries contribute zero without breaking the sequence. -/
theorem organic_numbering_continuous
    (queries : List String) (responses : List SearchResponse)
    (hne : queries ≠ []) (hlen : queries.length = responses.length)
    (hok : ∃ s, format_search_results queries responses = Except.ok s) :
    numbersUsed 1 (queries.zip responses) =
      Except.ok (List.range' 1 (totalOrganicCount responses)) := by
  obtain ⟨s, hs⟩ := hok
  rw [format_search_results] at hs
  cases hfp : formatPairs 1 (queries.zip responses) with
  | error err => rw [hfp] at hs; simp [Except.map] at hs
  | ok blocks =>
    have hnum := numbersUsed_of_formatPairs_ok hfp
    rwa [List.map_snd_zip queries responses (le_of_eq hlen.symm)] at hnum

/-- Concrete batch for the C1 witness: 3 organic results, then 2. -/
def c1WitnessQueries : List String := ["first", "second"]

/-- Concrete responses for the C1 witness. -/
def c1WitnessResponses : List SearchResponse :=
  [⟨none, some [⟨some 0, some "a", none, none, none⟩, ⟨some 1, none, none, none, none⟩,
     ⟨some 0, none, none, none, none⟩, ⟨some 0, none, none, none, none⟩]⟩,
   ⟨none, some [⟨some 0, none, none, none, none⟩, ⟨some 0, none, none, none, none⟩]⟩]

/-- C1 witness: on the concrete 3-result/2-result batch the numbering is
1..5. -/
theorem organic_numbering_continuous_witness :
    numbersUsed 1 (c1WitnessQueries.zip c1WitnessResponses) =
      Except.ok (List.range' 1 (totalOrganicCount c1WitnessResponses)) :=
  organic_numbering_continuous c1WitnessQueries c1WitnessResponses
    (by decide) (by decide) ⟨_, rfl⟩

/-- C3: the search tool rejects an empty query list and the summarizer
rejects an empty URL, each raising the invalid-input `ValueError` with an
empty gateway-call log, i.e. before any remote call. -/
theorem empty_inputs_rejected_before_any_call :
    (∀ search : String → Except String SearchResponse,
      kagi_search_fetch search [] =
        (Except.error (PyErr.valueError "Search called with no queries."), [])) ∧
    (∀ (summarize : SummarizeCall → Except PyErr SummarizeResponse)
      (engineEnv : Option String) (st : SummaryType) (tl : Option String),
      kagi_summarizer summarize engineEnv "" st tl =
        (Except.error (PyErr.valueError "Summarizer called with no URL."), [])) :=
  ⟨fun _ => rfl, fun _ _ _ _ => rfl⟩

/-- C4: an engine value outside the closed set is rejected with a
configuration `ValueError` whose message names the offending value and the
valid set, and the gateway-call log stays empty. -/
theorem invalid_engine_rejected_with_config_error
    (summarize : SummarizeCall → Except PyErr SummarizeResponse)
    (engineEnv : Option String) (url : String) (st : SummaryType) (tl : Option String)
    (hurl : url ≠ "")
    (heng : validEngines.contains (engineEnv.getD "cecil") = false) :
    kagi_summarizer summarize engineEnv url st tl =
      (Except.error (PyErr.valueError
        ("Summarizer configured incorrectly, invalid summarization engine set: " ++
          engineEnv.getD "cecil" ++ ". Must be one of the following: " ++
          pySetRepr validEngines)), []) := by
  have hmem : engineEnv.getD "cecil" ∉ validEngines := by simpa using heng
  simp [kagi_summarizer, if_neg hurl, heng, engineErrorMsg, hmem]

/-- C4 witness: the engine value `"bogus"` is rejected without a gateway
call. -/
theorem invalid_engine_rejected_with_config_error_witness :
    kagi_summarizer (fun _ => Except.ok ⟨none, none⟩) (some "bogus")
        "https://example.com" SummaryType.summary none =
      (Except.error (PyErr.valueError
        ("Summarizer configured incorrectly, invalid summarization engine set: " ++
          (some "bogus").getD "cecil" ++ ". Must be one of the following: " ++
          pySetRepr validEngines)), []) :=
  invalid_engine_rejected_with_config_error _ _ _ _ _ (by decide) (by decide)

/-- C5 counterexample: two summarizer responses carrying an error field on
which the call does not fail with that error message: with the error field
present but no `data` key the call fails with `KeyError("data")` instead,
and with an empty error message next to a populated output the call
succeeds and returns the output. -/
theorem summarizer_error_field_not_always_raised :
    (kagi_summarizer (fun _ => Except.ok ⟨none, some "boom"⟩) none
        "https://example.com" SummaryType.summary none).1 =
      Except.error (PyErr.keyError "data") ∧
    (kagi_summarizer (fun _ => Except.ok ⟨some ⟨some "text"⟩, some ""⟩) none
        "https://example.com" SummaryType.summary none).1 = Except.ok "text" :=
  ⟨rfl, rfl⟩

/-- C5 amended: for every summarizer response whose `data.output` is present
and whose error field is non-empty, the call fails with exactly that error
message; the output text is discarded. -/
theorem summarizer_error_beats_populated_output
    (resp : SummarizeResponse) (out e : String)
    (hdata : resp.data = some ⟨some out⟩) (herr : resp.error = some e) (hne : e ≠ "")
    (url : String) (hurl : url ≠ "") (st : SummaryType) (tl : Option String) :
    (kagi_summarizer (fun _ => Except.ok resp) none url st tl).1 =
      Except.error (PyErr.valueError e) := by
  simp [kagi_summarizer, if_neg hurl, validEngines, handleSummarizeResponse,
    hdata, herr, truthyError, hne]

/-- C5 witness: a response with both a populated output and the error
message `"boom"` fails with `"boom"`. -/
theorem summarizer_error_beats_populated_output_witness :
    (kagi_summarizer (fun _ => Except.ok ⟨some ⟨some "text"⟩, some "boom"⟩) none
        "https://example.com" SummaryType.summary none).1 =
      Except.error (PyErr.valueError "boom") :=
  summarizer_error_beats_populated_output ⟨some ⟨some "text"⟩, some "boom"⟩
    "text" "boom" rfl rfl (by decide) "https://example.com" (by decide)
    SummaryType.summary none

/-- C10: the summarizer extracts `response["data"]["output"]` before its
error check, so a response carrying an error field but no `data` key fails
with `KeyError("data")`, and one whose data record has no `output` key fails
with `KeyError("output")`, not with the upstream error message. -/
theorem summarizer_output_extraction_precedes_error_check
    (resp : SummarizeResponse) (e : String) (herr : resp.error = some e)
    (url : String) (hurl : url ≠ "") (st : SummaryType) (tl : Option String) :
    (resp.data = none →
      (kagi_summarizer (fun _ => Except.ok resp) none url st tl).1 =
        Except.error (PyErr.keyError "data")) ∧
    (resp.data = some ⟨none⟩ →
      (kagi_summarizer (fun _ => Except.ok resp) none url st tl).1 =
        Except.error (PyErr.keyError "output")) := by
  constructor <;> intro hd <;>
    simp [kagi_summarizer, if_neg hurl, validEngines, handleSummarizeResponse, hd]

/-- C10 witness: a response with error `"boom"` and no data key fails with
`KeyError("data")`. -/
theorem summarizer_output_extraction_precedes_error_check_witness :
    (kagi_summarizer (fun _ => Except.ok ⟨none, some "boom"⟩) none
        "https://u" SummaryType.summary none).1 =
      Except.error (PyErr.keyError "data") :=
  (summarizer_output_extraction_precedes_error_check ⟨none, some "boom"⟩ "boom"
    rfl "https://u" (by decide) SummaryType.summary none).1 rfl

/-- C2 amended: for every query whose response carries a non-empty error
field, the per-query block is the labeled header followed by the single line
`ERROR: <message>`, none of the response's data items are rendered (the data
field is arbitrary and untouched), and the query contributes nothing to the
continuous numbering. -/
theorem errored_query_renders_error_block
    (query : String) (response : SearchResponse) (e : String)
    (rest : List (String × SearchResponse)) (start_index : Nat)
    (herr : response.error = some e) (hne : e ≠ "") :
    formatPairs start_index ((query, response) :: rest) =
      (formatPairs start_index rest).map
        (fun tail => formatQueryBlock query ("ERROR: " ++ e) :: tail) ∧
    numbersUsed start_index ((query, response) :: rest) =
      numbersUsed start_index rest := by
  have ht : truthyError response.error = some e := by simp [truthyError, herr, hne]
  constructor
  · cases hfp : formatPairs start_index rest with
    | error err => simp [formatPairs, ht, hfp, Except.map]
    | ok tail => simp [formatPairs, ht, hfp, Except.map]
  · simp [numbersUsed, ht]

/-- C2 witness: a response with error `"boom"` and a non-empty data list
renders the `ERROR:` block and is skipped by the numbering, at start index
5. -/
theorem errored_query_renders_error_block_witness :
    formatPairs 5
        [("q", (⟨some "boom", some [⟨some 0, none, none, none, none⟩]⟩ : SearchResponse))] =
      (formatPairs 5 ([] : List (String × SearchResponse))).map
        (fun tail => formatQueryBlock "q" ("ERROR: " ++ "boom") :: tail) ∧
    numbersUsed 5
        [("q", (⟨some "boom", some [⟨some 0, none, none, none, none⟩]⟩ : SearchResponse))] =
      numbersUsed 5 ([] : List (String × SearchResponse)) :=
  errored_query_renders_error_block "q"
    ⟨some "boom", some [⟨some 0, none, none, none, none⟩]⟩ "boom" [] 5 rfl (by decide)

/-- C2 counterexample: a response that contains an error field whose message
is empty (falsy in Python) does not render an `ERROR:` block; its data item
is rendered and numbered instead. -/
theorem empty_error_field_renders_data :
    format_search_results ["q"]
        [⟨some "", some [⟨some 0, some "T", some "U", some "P", some "S"⟩]⟩] =
      Except.ok (formatQueryBlock "q" "1: T\nU\nPublished Date: P\nS") ∧
    formatQueryBlock "q" "1: T\nU\nPublished Date: P\nS" ≠
      formatQueryBlock "q" ("ERROR: " ++ "") :=
  ⟨rfl, by decide⟩

/-- C6 counterexample: on a response with neither an error field nor a data
field the formatter raises `KeyError("data")` instead of returning a
string. -/
theorem formatter_raises_on_missing_data :
    format_search_results ["q"] [⟨none, none⟩] =
      Except.error (PyErr.keyError "data") := rfl

/-- C6 amended: the formatter returns a string, without raising, on every
input whose responses are well-formed: each response either carries a
non-empty error or carries a data list all of whose items carry a `t` tag.
The four optional text fields may be missing arbitrarily (the sentinel
covers them); a missing `data` list or a missing `t` tag raises a
key-lookup error instead. -/
theorem formatter_total_on_wellformed_responses
    (queries : List String) (responses : List SearchResponse)
    (h : responses.all wellFormedResponse = true) :
    ∃ s, format_search_results queries responses = Except.ok s := by
  have hz : ∀ p ∈ queries.zip responses, wellFormedResponse p.2 = true := by
    intro p hp
    obtain ⟨a, b⟩ := p
    exact List.all_eq_true.mp h _ (List.of_mem_zip hp).2
  obtain ⟨blocks, hb⟩ := formatPairs_ok_of_wellFormed hz 1
  exact ⟨String.intercalate "\n\n" blocks,
    by simp [format_search_results, hb, Except.map]⟩

/-- C6 witness: a batch mixing an errored response and a response whose
items miss every optional field formats successfully. -/
theorem formatter_total_on_wellformed_responses_witness :
    ∃ s, format_search_results ["q1", "q2"]
      [⟨some "oops", none⟩,
       ⟨none, some [⟨some 0, none, none, none, none⟩, ⟨some 1, none, none, none, none⟩]⟩] =
      Except.ok s :=
  formatter_total_on_wellformed_responses _ _ (by decide)

theorem runSearchBatch_error_of_mem
    (search : String → Except String SearchResponse) (queries : List String)
    (q : String) (f : String) (hq : q ∈ queries) (hf : search q = Except.error f) :
    ∃ g, runSearchBatch search queries = Except.error g ∧
      ∃ q2 ∈ queries, search q2 = Except.error g := by
  induction queries with
  | nil => cases hq
  | cons a rest ih =>
    cases ha : search a with
    | error g =>
      exact ⟨g, by simp [runSearchBatch, ha], a, List.mem_cons_self _ _, ha⟩
    | ok b =>
      have hq' : q ∈ rest := by
        cases List.mem_cons.mp hq with
        | inl h => subst h; rw [hf] at ha; cases ha
        | inr h => exact h
      obtain ⟨g, hmap, q2, hq2, hs2⟩ := ih hq'
      exact ⟨g, by simp [runSearchBatch, ha, hmap], q2,
        List.mem_cons_of_mem _ hq2, hs2⟩

/-- C9: if any query of the batch makes the gateway raise a fault, the whole
search aborts with the single aggregate beta-access error embedding the
underlying fault, no formatted output is produced for any query, and the
fan-out had already submitted every query. -/
theorem transport_fault_aborts_whole_batch
    (search : String → Except String SearchResponse) (queries : List String)
    (q : String) (f : String) (hq : q ∈ queries) (hf : search q = Except.error f) :
    ∃ g, (∃ q2 ∈ queries, search q2 = Except.error g) ∧
      kagi_search_fetch search queries =
        (Except.error (PyErr.valueError (searchBetaErrText ++ g)), queries) := by
  obtain ⟨g, hmap, hwit⟩ := runSearchBatch_error_of_mem search queries q f hq hf
  have hne : queries.isEmpty = false := by
    cases queries with
    | nil => cases hq
    | cons a rest => rfl
  exact ⟨g, hwit, by simp [kagi_search_fetch, hne, hmap]⟩

/-- Concrete gateway oracle for the C9 witness: the second query times
out. -/
def c9WitnessSearch (q : String) : Except String SearchResponse :=
  if q = "good" then Except.ok ⟨none, some []⟩ else Except.error "read timeout"

/-- C9 witness: with one healthy and one faulting query the whole batch
aborts with the aggregate beta-access error. -/
theorem transport_fault_aborts_whole_batch_witness :
    ∃ g, (∃ q2 ∈ ["good", "bad"], c9WitnessSearch q2 = Except.error g) ∧
      kagi_search_fetch c9WitnessSearch ["good", "bad"] =
        (Except.error (PyErr.valueError (searchBetaErrText ++ g)), ["good", "bad"]) :=
  transport_fault_aborts_whole_batch c9WitnessSearch ["good", "bad"] "bad"
    "read timeout" (by decide) rfl

/-- C7: in the full pipeline, each of the four optional fields of a rendered
organic result renders as its value when present and as the sentinel
`"Not Available"` when absent, independently per field: all sixteen
presence/absence combinations follow the same template. -/
theorem missing_fields_render_sentinel
    (q : String) (title url published snippet : Option String) :
    format_search_results [q] [⟨none, some [⟨some 0, title, url, published, snippet⟩]⟩] =
      Except.ok (formatQueryBlock q
        ("1: " ++ title.getD "Not Available" ++ "\n" ++ url.getD "Not Available" ++
          "\nPublished Date: " ++ published.getD "Not Available" ++ "\n" ++
          snippet.getD "Not Available")) := by
  have hpipe : format_search_results [q]
      [⟨none, some [⟨some 0, title, url, published, snippet⟩]⟩] =
      Except.ok (formatQueryBlock q
        (formatResult 1 ⟨some 0, title, url, published, snippet⟩)) := rfl
  have hres : formatResult 1 (⟨some 0, title, url, published, snippet⟩ : ResultItem) =
      "1: " ++ title.getD "Not Available" ++ "\n" ++ url.getD "Not Available" ++
        "\nPublished Date: " ++ published.getD "Not Available" ++ "\n" ++
        snippet.getD "Not Available" := by
    cases title <;> cases url <;> cases published <;> cases snippet <;> rfl
  rw [hpipe, hres]

theorem filterOrganic_filter_not_related (data : List ResultItem) :
    filterOrganic (data.filter fun r => !(r.t == some 1)) = filterOrganic data := by
  induction data with
  | nil => rfl
  | cons r rest ih =>
    cases hr : r.t with
    | none =>
      have hkeep : (!(r.t == some 1)) = true := by simp [hr]
      simp [List.filter_cons, hkeep, filterOrganic, hr]
    | some t =>
      by_cases h1 : t = 1
      · subst h1
        have hdrop : (!(r.t == some 1)) = false := by simp [hr]
        rw [List.filter_cons, hdrop]
        simp only [Bool.false_eq_true, if_neg, ite_false, ih]
        rw [show filterOrganic (r :: rest) =
          (match r.t with
            | none => Except.error (PyErr.keyError "t")
            | some t =>
              match filterOrganic rest with
              | Except.error e => Except.error e
              | Except.ok tail =>
                if t == 0 then Except.ok (r :: tail) else Except.ok tail) from rfl, hr]
        cases hf : filterOrganic rest <;> simp [hf]
      · have hkeep : (!(r.t == some 1)) = true := by simp [hr, h1]
        simp only [List.filter_cons, hkeep, if_true]
        simp [filterOrganic, hr, h1, ih]

theorem formatPairs_dropRelated (pairs : List (String × SearchResponse)) :
    ∀ start_index, formatPairs start_index
        (pairs.map fun p => (p.1, dropRelated p.2)) = formatPairs start_index pairs := by
  induction pairs with
  | nil => intro _; rfl
  | cons p rest ih =>
    intro start_index
    obtain ⟨query, response⟩ := p
    have hde : (dropRelated response).error = response.error := rfl
    have hdd : (dropRelated response).data =
      response.data.map (List.filter fun r => !(r.t == some 1)) := rfl
    match he : truthyError response.error, hd : response.data with
    | some e, _ =>
      simp [formatPairs, hde, he, ih]
    | none, none =>
      simp [formatPairs, hde, hdd, he, hd]
    | none, some data =>
      simp [formatPairs, hde, hdd, he, hd, filterOrganic_filter_not_related, ih]

theorem numbersUsed_dropRelated (pairs : List (String × SearchResponse)) :
    ∀ start_index, numbersUsed start_index
        (pairs.map fun p => (p.1, dropRelated p.2)) = numbersUsed start_index pairs := by
  induction pairs with
  | nil => intro _; rfl
  | cons p rest ih =>
    intro start_index
    obtain ⟨query, response⟩ := p
    have hde : (dropRelated response).error = response.error := rfl
    have hdd : (dropRelated response).data =
      response.data.map (List.filter fun r => !(r.t == some 1)) := rfl
    match he : truthyError response.error, hd : response.data with
    | some e, _ =>
      simp [numbersUsed, hde, he, ih]
    | none, none =>
      simp [numbersUsed, hde, hdd, he, hd]
    | none, some data =>
      simp [numbersUsed, hde, hdd, he, hd, filterOrganic_filter_not_related, ih]

/-- C8: only `t = 0` items are rendered: removing every `t = 1`
(related-search) item from each response changes neither the formatter
output nor the sequence of result numbers, on every input. -/
theorem related_search_items_excluded
    (queries : List String) (responses : List SearchResponse) :
    format_search_results queries responses =
      format_search_results queries (responses.map dropRelated) ∧
    numbersUsed 1 (queries.zip responses) =
      numbersUsed 1 (queries.zip (responses.map dropRelated)) := by
  have hz : queries.zip (responses.map dropRelated) =
      (queries.zip responses).map fun p => (p.1, dropRelated p.2) := by
    rw [List.zip_map_right]
    exact List.map_congr_left fun p _ => by cases p; rfl
  constructor
  · rw [format_search_results, format_search_results, hz, formatPairs_dropRelated]
  · rw [hz, numbersUsed_dropRelated]
